import Mathlib

/-!
Shallow embedding of `src/backend/langflow/api/v1/endpoints.py`, the flow
execution orchestration façade: the `process_flow` launch endpoint and the
`get_task_status` status endpoint.  External collaborators (the SQLAlchemy
session, the task service's launch functions and `process_tweaks`) are
passed in as explicit parameters; exceptions are modelled with `Except`
and the HTTP boundary with an `Outcome` type.
-/

namespace Langflow

/-- A Python value, as far as the endpoints inspect one: `None`, booleans,
integers, strings, lists, dicts with string keys, and record-like objects
exposing attributes (the duck-typed task-result shapes). -/
inductive PyVal where
  | vNone
  | vBool (b : Bool)
  | vInt (n : Int)
  | vStr (s : String)
  | vList (xs : List PyVal)
  | vDict (entries : List (String × PyVal))
  | vObj (attrs : List (String × PyVal))

/-- The Python exceptions the handlers in `process_flow` distinguish. -/
inductive PyExc where
  | valueError (msg : String)
  | statementError (msg : String)
  | keyError (key : String)
  | attributeError (msg : String)
  | httpException (statusCode : Nat) (detail : String)
  | other (msg : String)
  deriving DecidableEq

/-- Python `str(exc)`, for the handlers that wrap an exception's text into
an HTTP detail message. -/
def pyStr : PyExc → String
  | .valueError msg => msg
  | .statementError msg => msg
  | .keyError key => "'" ++ key ++ "'"
  | .attributeError msg => msg
  | .httpException statusCode detail => toString statusCode ++ ": " ++ detail
  | .other msg => msg

/-- First-match association-list lookup; Python dict keys are unique, so
first match is the dict lookup. -/
def dictLookup : List (String × PyVal) → String → Option PyVal
  | [], _ => none
  | (k, v) :: t, key => if k == key then some v else dictLookup t key

/-- Python `key in d` for a dict. -/
def dictContainsKey (entries : List (String × PyVal)) (key : String) : Bool :=
  (dictLookup entries key).isSome

/-- Python `isinstance(v, dict) and key in v`. -/
def PyVal.isDictWithKey (v : PyVal) (key : String) : Bool :=
  match v with
  | .vDict entries => dictContainsKey entries key
  | _ => false

/-- Python `hasattr(v, name)`: only record-like objects expose attributes;
dicts, lists and scalars do not have a `result` attribute. -/
def PyVal.hasAttr (v : PyVal) (name : String) : Bool :=
  match v with
  | .vObj attrs => dictContainsKey attrs name
  | _ => false

/-- Python `v[key]`: raises `KeyError` when the key is absent and a
`TypeError`-like failure when `v` is not a dict. -/
def PyVal.getItem (v : PyVal) (key : String) : Except PyExc PyVal :=
  match v with
  | .vDict entries =>
    match dictLookup entries key with
    | some x => .ok x
    | none => .error (.keyError key)
  | _ => .error (.other "object is not subscriptable")

/-- Python `v.name`: raises `AttributeError` when the attribute is absent
or the value is not a record-like object. -/
def PyVal.getAttr (v : PyVal) (name : String) : Except PyExc PyVal :=
  match v with
  | .vObj attrs =>
    match dictLookup attrs name with
    | some x => .ok x
    | none => .error (.attributeError ("object has no attribute " ++ name))
  | _ => .error (.attributeError ("object has no attribute " ++ name))

/-- Total variant of `PyVal.getItem` used where a preceding guard already
established that the key is present. -/
def PyVal.getItemD (v : PyVal) (key : String) : PyVal :=
  match v with
  | .vDict entries => (dictLookup entries key).getD .vNone
  | _ => .vNone

/-- Total variant of `PyVal.getAttr` used where a preceding guard already
established that the attribute is present. -/
def PyVal.getAttrD (v : PyVal) (name : String) : PyVal :=
  match v with
  | .vObj attrs => (dictLookup attrs name).getD .vNone
  | _ => .vNone

/-- Lifts the initial `session_id : Optional[str]` parameter into the
dynamically typed response field. -/
def pyOfOptStr : Option String → PyVal
  | none => .vNone
  | some s => .vStr s

/-- A stored flow row: `Flow.id`, `Flow.user_id`, `Flow.data` as queried by
`process_flow`. -/
structure Flow where
  id : String
  user_id : Nat
  data : Option PyVal

/-- The calling user resolved from the API key (`api_key_user`). -/
structure User where
  id : Nat

/-- The task object returned by `task_service.get_task` / `launch_task`:
the endpoints read `task.status`, `task.ready()` and `task.result`. -/
structure Task where
  status : PyVal
  ready : Bool
  result : PyVal

/-- `ProcessResponse(result=..., id=..., session_id=...)`. -/
structure ProcessResponse where
  result : PyVal
  id : Option String
  session_id : PyVal

/-- `TaskStatusResponse(status=..., result=...)`. -/
structure TaskStatusResponse where
  status : PyVal
  result : PyVal

/-- What the HTTP boundary observes for one request: a successful response,
an `HTTPException` rendered with its status code and detail, the implicit
`None` fall-through of an `except` block that re-raises nothing, or an
exception that escapes the endpoint unhandled (the ASGI server turns it
into a generic 500 Internal Server Error response, with no endpoint-chosen
status or detail). -/
inductive Outcome (α : Type) where
  | ok (value : α)
  | httpError (statusCode : Nat) (detail : String)
  | noneReturn
  | unhandled (e : PyExc)

/-- Message of `ValueError(f"Flow {flow_id} not found")`. -/
def flowNotFoundMsg (flow_id : String) : String :=
  "Flow " ++ flow_id ++ " not found"

/-- Message of `ValueError(f"Flow {flow_id} has no data")`. -/
def flowNoDataMsg (flow_id : String) : String :=
  "Flow " ++ flow_id ++ " has no data"

/-- The substring the `except sa.exc.StatementError` handler looks for. -/
def badUuidFragment : String := "badly formed hexadecimal UUID string"

/-- The `StatementError` text quoted in the source's own comment:
`StatementError('(builtins.ValueError) badly formed hexadecimal UUID string')`. -/
def statementErrorMsg : String :=
  "(builtins.ValueError) badly formed hexadecimal UUID string"

/-- Python's substring test `pat in hay` on the character lists. -/
def listContains : List Char → List Char → Bool
  | [], pat => pat.isEmpty
  | c :: t, pat => pat.isPrefixOf (c :: t) || listContains t pat

/-- Python's substring test `pat in hay` on strings. -/
def strContains (hay pat : String) : Bool :=
  listContains hay.toList pat.toList

/-- Python `c in string.hexdigits`. -/
def isHexDigit (c : Char) : Bool :=
  (decide ('0' ≤ c) && decide (c ≤ '9')) ||
  (decide ('a' ≤ c) && decide (c ≤ 'f')) ||
  (decide ('A' ≤ c) && decide (c ≤ 'F'))

/-- Modelled from the spec: whether a flow identifier is a well-formed
UUID ("malformed flow identifier" in the error taxonomy).  The `uuid`
module that SQLAlchemy invokes when binding `flow_id` is not part of the
source tree; the standard hyphenated 32-hex-digit form is modelled. -/
def isValidUuid (s : String) : Bool :=
  let core := s.toList.filter (fun c => c != '-')
  core.length == 32 && core.all isHexDigit

/-- Models lines 127-132: `session.query(Flow).filter(Flow.id ==
flow_id).filter(Flow.user_id == api_key_user.id).first()`.  The SQLAlchemy
session is not in the source tree; its behaviour on a malformed `flow_id`
is taken from the source's own comment at the `except sa.exc.StatementError`
handler: binding a non-UUID identifier raises
`StatementError('(builtins.ValueError) badly formed hexadecimal UUID string')`
before any row is compared. -/
def queryFirstFlow (flows : List Flow) (flow_id : String) (user_id : Nat) :
    Except PyExc (Option Flow) :=
  if isValidUuid flow_id then
    .ok ((flows.filter fun f => f.id == flow_id && f.user_id == user_id).head?)
  else
    .error (.statementError statementErrorMsg)

/-- Lines 139-143: apply `process_tweaks` only when `tweaks` is truthy
(a non-empty dict); on an exception from the merge, log it and keep
`graph_data` bound to the original definition. -/
def resolveGraphData (data : PyVal) (tweaks : Option (List (String × PyVal)))
    (process_tweaks : PyVal → List (String × PyVal) → Except PyExc PyVal) : PyVal :=
  match tweaks with
  | none => data
  | some tw =>
    if tw.isEmpty then data
    else
      match process_tweaks data tw with
      | .ok g => g
      | .error _ => data

/-- Lines 154-160 plus the response build: normalize the completion value
of a synchronous launch.  A dict containing key `"result"` is read by
subscript (`result["result"]`, `result["session_id"]`); anything else is
read by attribute (`result.result`, `result.session_id`). -/
def normalizeSyncResult (task_id : Option String) (result : PyVal) :
    Except PyExc ProcessResponse :=
  if result.isDictWithKey "result" then
    match result.getItem "result" with
    | .error e => .error e
    | .ok task_result =>
      match result.getItem "session_id" with
      | .error e => .error e
      | .ok sid => .ok ⟨task_result, task_id, sid⟩
  else
    match result.getAttr "result" with
    | .error e => .error e
    | .ok task_result =>
      match result.getAttr "session_id" with
      | .error e => .error e
      | .ok sid => .ok ⟨task_result, task_id, sid⟩

/-- Lines 144-172: dispatch `graph_data` on the selected mode.  The launch
functions stand for `task_service.launch_and_await_task` and
`task_service.launch_task` applied to the chosen work callable
(`process_graph_cached_task` when `use_celery` else `process_graph_cached`);
the work callable is folded into the backend parameter since both backends
receive the same `(graph_data, inputs, clear_cache, session_id)` arguments. -/
def dispatchStep (graph_data : PyVal) (inputs : Option PyVal)
    (clear_cache : Bool) (session_id : Option String)
    (launch_and_await : PyVal → Option PyVal → Bool → Option String →
      Except PyExc (Option String × PyVal))
    (launch_task : PyVal → Option PyVal → Bool → Option String →
      Except PyExc (Option String × Task))
    (sync : Bool) : Except PyExc ProcessResponse :=
  if sync then
    match launch_and_await graph_data inputs clear_cache session_id with
    | .error e => .error e
    | .ok (task_id, result) => normalizeSyncResult task_id result
  else
    match launch_task graph_data inputs clear_cache session_id with
    | .error e => .error e
    | .ok (task_id, task) => .ok ⟨task.status, task_id, pyOfOptStr session_id⟩

/-- The body of the `try` block of `process_flow` (lines 119-172). -/
def processFlowBody (flows : List Flow) (flow_id : String)
    (api_key_user : Option User) (inputs : Option PyVal)
    (tweaks : Option (List (String × PyVal)))
    (clear_cache : Bool) (session_id : Option String)
    (process_tweaks : PyVal → List (String × PyVal) → Except PyExc PyVal)
    (launch_and_await : PyVal → Option PyVal → Bool → Option String →
      Except PyExc (Option String × PyVal))
    (launch_task : PyVal → Option PyVal → Bool → Option String →
      Except PyExc (Option String × Task))
    (sync : Bool) : Except PyExc ProcessResponse :=
  match api_key_user with
  | none => .error (.httpException 401 "Invalid API Key")
  | some user =>
    match queryFirstFlow flows flow_id user.id with
    | .error e => .error e
    | .ok none => .error (.valueError (flowNotFoundMsg flow_id))
    | .ok (some flow) =>
      match flow.data with
      | none => .error (.valueError (flowNoDataMsg flow_id))
      | some data =>
        dispatchStep (resolveGraphData data tweaks process_tweaks)
          inputs clear_cache session_id launch_and_await launch_task sync

/-- The `except` clauses of `process_flow` (lines 173-192), in source
order: a `StatementError` whose text mentions the bad-UUID fragment maps to
404; one that does not leaves the handler without raising, so the function
falls through and returns `None`; a `ValueError` maps to 404 when its text
contains `"Flow {flow_id} not found"` and to 500 otherwise; every other
exception maps to 500 with its `str`. -/
def handleProcessFlowExc (flow_id : String) (e : PyExc) :
    Outcome ProcessResponse :=
  match e with
  | .statementError msg =>
    if strContains msg badUuidFragment then .httpError 404 msg
    else .noneReturn
  | .valueError msg =>
    if strContains msg (flowNotFoundMsg flow_id) then .httpError 404 msg
    else .httpError 500 msg
  | e => .httpError 500 (pyStr e)

/-- The `process_flow` endpoint (lines 104-192): the `try` body with its
`except` clauses wrapped around it. -/
def process_flow (flows : List Flow) (flow_id : String)
    (api_key_user : Option User) (inputs : Option PyVal)
    (tweaks : Option (List (String × PyVal)))
    (clear_cache : Bool) (session_id : Option String)
    (process_tweaks : PyVal → List (String × PyVal) → Except PyExc PyVal)
    (launch_and_await : PyVal → Option PyVal → Bool → Option String →
      Except PyExc (Option String × PyVal))
    (launch_task : PyVal → Option PyVal → Bool → Option String →
      Except PyExc (Option String × Task))
    (sync : Bool) : Outcome ProcessResponse :=
  match processFlowBody flows flow_id api_key_user inputs tweaks clear_cache
      session_id process_tweaks launch_and_await launch_task sync with
  | .ok r => .ok r
  | .error e => handleProcessFlowExc flow_id e

/-- `str(AttributeError)` raised by `None.ready()`. -/
def noneReadyMsg : String := "'NoneType' object has no attribute 'ready'"

/-- The `get_task_status` endpoint (lines 195-209).  The parameter is the
value returned by `task_service.get_task(task_id)`; `none` models the task
service knowing no task for the identifier.  The endpoint has no
`try`/`except`: when `task` is `None` the very first use, `task.ready()`,
raises `AttributeError`, which escapes unhandled — the later
`if task is None: raise HTTPException(404, "Task not found")` at lines
207-208 is only reached when `task` is not `None`, so it never fires and
is dead code. -/
def get_task_status (task : Option Task) : Outcome TaskStatusResponse :=
  match task with
  | none => .unhandled (.attributeError noneReadyMsg)
  | some t =>
    let result : PyVal :=
      if t.ready then
        let r := t.result
        if r.isDictWithKey "result" then r.getItemD "result"
        else if r.hasAttr "result" then r.getAttrD "result"
        else r
      else .vNone
    .ok ⟨t.status, result⟩

/-! ### String lemmas for the message-based error discrimination -/

theorem listContains_self (l : List Char) : listContains l l = true := by
  cases l with
  | nil => rfl
  | cons c t => simp [listContains, List.isPrefixOf_iff_prefix]

theorem mem_of_listContains {hay pat : List Char}
    (h : listContains hay pat = true) : ∀ c ∈ pat, c ∈ hay := by
  induction hay with
  | nil =>
    intro c hc
    simp only [listContains, List.isEmpty_iff] at h
    subst h
    simp at hc
  | cons x t ih =>
    intro c hc
    simp only [listContains, Bool.or_eq_true] at h
    rcases h with h | h
    · exact (List.isPrefixOf_iff_prefix.mp h).subset hc
    · exact List.mem_cons_of_mem x (ih h c hc)

theorem strContains_self (s : String) : strContains s s = true :=
  listContains_self s.toList

theorem validUuid_chars {s : String} (h : isValidUuid s = true) :
    ∀ c ∈ s.toList, c = '-' ∨ isHexDigit c = true := by
  intro c hc
  by_cases hd : c = '-'
  · exact Or.inl hd
  · right
    simp only [isValidUuid, Bool.and_eq_true, List.all_eq_true] at h
    refine h.2 c (List.mem_filter.mpr ⟨hc, ?_⟩)
    simpa using hd

theorem toList_flowNoDataMsg (fid : String) :
    (flowNoDataMsg fid).toList =
      "Flow ".toList ++ fid.toList ++ " has no data".toList := by
  simp [flowNoDataMsg, String.toList, String.data_append]

theorem toList_flowNotFoundMsg (fid : String) :
    (flowNotFoundMsg fid).toList =
      "Flow ".toList ++ fid.toList ++ " not found".toList := by
  simp [flowNotFoundMsg, String.toList, String.data_append]

/-- The character `u` occurs in `"Flow {fid} not found"` but nowhere in
`"Flow {fid} has no data"` when `fid` is a well-formed UUID, so the
`except ValueError` handler's substring test cannot mistake the
missing-data message for the not-found message. -/
theorem strContains_noData_notFound {fid : String}
    (h : isValidUuid fid = true) :
    strContains (flowNoDataMsg fid) (flowNotFoundMsg fid) = false := by
  by_contra hb
  have hc : listContains (flowNoDataMsg fid).toList
      (flowNotFoundMsg fid).toList = true := by
    revert hb
    unfold strContains
    cases listContains (flowNoDataMsg fid).toList (flowNotFoundMsg fid).toList
    · intro hb; exact absurd rfl hb
    · intro _; rfl
  have hu : 'u' ∈ (flowNoDataMsg fid).toList := by
    refine mem_of_listContains hc 'u' ?_
    rw [toList_flowNotFoundMsg]
    simp only [List.mem_append]
    right
    decide
  rw [toList_flowNoDataMsg] at hu
  simp only [List.mem_append] at hu
  rcases hu with (hu | hu) | hu
  · exact absurd hu (by decide)
  · rcases validUuid_chars h 'u' hu with h1 | h1
    · exact absurd h1 (by decide)
    · exact absurd h1 (by decide)
  · exact absurd hu (by decide)

/-! ### Concrete fixtures shared by the witnesses -/

/-- A well-formed flow identifier. -/
def uuidA : String := "00000000-0000-0000-0000-000000000001"

/-- A stored flow owned by user 1 with a graph definition. -/
def flowA : Flow := ⟨uuidA, 1, some (.vDict [("nodes", .vList [])])⟩

/-- A stored flow owned by user 1 whose `data` column is NULL. -/
def flowNoData : Flow := ⟨uuidA, 1, none⟩

/-- The calling user. -/
def userA : User := ⟨1⟩

/-- A merge engine that never fires (witnesses that do not exercise it). -/
def ptOk : PyVal → List (String × PyVal) → Except PyExc PyVal :=
  fun g _ => .ok g

/-- A synchronous backend that is never reached in the scenario at hand. -/
def laUnused : PyVal → Option PyVal → Bool → Option String →
    Except PyExc (Option String × PyVal) :=
  fun _ _ _ _ => .error (.other "backend not reached")

/-- An asynchronous backend that is never reached in the scenario at hand. -/
def ltUnused : PyVal → Option PyVal → Bool → Option String →
    Except PyExc (Option String × Task) :=
  fun _ _ _ _ => .error (.other "backend not reached")

/-! ### Claim theorems: the status endpoint -/

/-- C2: the claim says a status query for an unknown task identifier fails
with HTTP 404 "Task not found"; the code instead evaluates `task.ready()`
before its `if task is None` check, so when the task service returns no
task the endpoint raises an unhandled `AttributeError` (surfaced by the
server as a generic 500), and the 404 branch is unreachable.  This theorem
evaluates the embedded endpoint at the failing input. -/
theorem c2_unknown_task_raises_attribute_error :
    get_task_status none = .unhandled (.attributeError noneReadyMsg) := rfl

/-- C10: for a known task that is not ready, the reported result is `None`
regardless of any payload attached to the task. -/
theorem c10_not_ready_result_is_none (t : Task) (h : t.ready = false) :
    get_task_status (some t) = .ok ⟨t.status, .vNone⟩ := by
  simp [get_task_status, h]

theorem c10_witness :
    (Task.mk (.vStr "pending") false (.vInt 42)).ready = false ∧
      get_task_status (some (Task.mk (.vStr "pending") false (.vInt 42))) =
        .ok ⟨.vStr "pending", .vNone⟩ :=
  ⟨rfl, c10_not_ready_result_is_none (Task.mk (.vStr "pending") false (.vInt 42)) rfl⟩

/-- C6: for a completed task whose stored result is a wrapper — a dict with
key `"result"` or an object with a `result` attribute — the reported result
is the nested value, unwrapped exactly once (the nested value itself is
returned as-is, even when it is again a wrapper). -/
theorem c6_completed_result_unwrapped_once (t : Task) (x : PyVal)
    (entries attrs : List (String × PyVal)) (hready : t.ready = true) :
    (t.result = .vDict entries → dictLookup entries "result" = some x →
      get_task_status (some t) = .ok ⟨t.status, x⟩) ∧
    (t.result = .vObj attrs → dictLookup attrs "result" = some x →
      get_task_status (some t) = .ok ⟨t.status, x⟩) := by
  constructor
  · intro hr hl
    simp [get_task_status, hready, hr, PyVal.isDictWithKey, dictContainsKey,
      hl, PyVal.getItemD]
  · intro hr hl
    simp [get_task_status, hready, hr, PyVal.isDictWithKey, PyVal.hasAttr,
      dictContainsKey, hl, PyVal.getAttrD]

theorem c6_witness :
    (Task.mk (.vStr "SUCCESS") true
        (.vDict [("result", .vDict [("result", .vInt 7)])])).ready = true ∧
    (Task.mk (.vStr "SUCCESS") true
        (.vDict [("result", .vDict [("result", .vInt 7)])])).result =
      .vDict [("result", .vDict [("result", .vInt 7)])] ∧
    dictLookup [("result", .vDict [("result", .vInt 7)])] "result" =
      some (.vDict [("result", .vInt 7)]) ∧
    get_task_status (some (Task.mk (.vStr "SUCCESS") true
        (.vDict [("result", .vDict [("result", .vInt 7)])]))) =
      .ok ⟨.vStr "SUCCESS", .vDict [("result", .vInt 7)]⟩ :=
  ⟨rfl, rfl, rfl,
    (c6_completed_result_unwrapped_once
      (Task.mk (.vStr "SUCCESS") true
        (.vDict [("result", .vDict [("result", .vInt 7)])]))
      (.vDict [("result", .vInt 7)])
      [("result", .vDict [("result", .vInt 7)])] [] rfl).1 rfl rfl⟩

/-! ### Claim theorems: the launch endpoint -/

/-- Fact used by the malformed-identifier handler: the quoted
`StatementError` text does contain the fragment the handler looks for. -/
theorem statementMsg_contains_fragment :
    strContains statementErrorMsg badUuidFragment = true := by decide

/-- C1: for a synchronous launch, the façade normalizes both completion
shapes of the backend into one response contract: a dict containing key
`"result"` is read through the entries `"result"`/`"session_id"`, and a
record-like object through the attributes `.result`/`.session_id`, and
both shapes produce the identical response. -/
theorem c1_sync_normalizes_both_shapes
    (flows : List Flow) (fid : String) (u : User) (inputs : Option PyVal)
    (tweaks : Option (List (String × PyVal))) (cc : Bool) (sid : Option String)
    (pt : PyVal → List (String × PyVal) → Except PyExc PyVal)
    (lt : PyVal → Option PyVal → Bool → Option String →
      Except PyExc (Option String × Task))
    (tid : Option String) (rv sv : PyVal) (f : Flow) (d : PyVal)
    (hq : queryFirstFlow flows fid u.id = .ok (some f))
    (hd : f.data = some d) :
    process_flow flows fid (some u) inputs tweaks cc sid pt
        (fun _ _ _ _ => .ok (tid, .vDict [("result", rv), ("session_id", sv)]))
        lt true
      = .ok ⟨rv, tid, sv⟩ ∧
    process_flow flows fid (some u) inputs tweaks cc sid pt
        (fun _ _ _ _ => .ok (tid, .vObj [("result", rv), ("session_id", sv)]))
        lt true
      = .ok ⟨rv, tid, sv⟩ := by
  constructor <;>
    simp [process_flow, processFlowBody, hq, hd, dispatchStep,
      normalizeSyncResult, PyVal.isDictWithKey, dictContainsKey, dictLookup,
      PyVal.getItem, PyVal.getAttr]

theorem c1_witness :
    queryFirstFlow [flowA] uuidA userA.id = .ok (some flowA) ∧
    flowA.data = some (.vDict [("nodes", .vList [])]) ∧
    (process_flow [flowA] uuidA (some userA) none none false none ptOk
        (fun _ _ _ _ =>
          .ok (some "t1", .vDict [("result", .vInt 3), ("session_id", .vStr "s1")]))
        ltUnused true
      = .ok ⟨.vInt 3, some "t1", .vStr "s1"⟩ ∧
     process_flow [flowA] uuidA (some userA) none none false none ptOk
        (fun _ _ _ _ =>
          .ok (some "t1", .vObj [("result", .vInt 3), ("session_id", .vStr "s1")]))
        ltUnused true
      = .ok ⟨.vInt 3, some "t1", .vStr "s1"⟩) :=
  ⟨rfl, rfl,
    c1_sync_normalizes_both_shapes [flowA] uuidA userA none none false none
      ptOk ltUnused (some "t1") (.vInt 3) (.vStr "s1") flowA
      (.vDict [("nodes", .vList [])]) rfl rfl⟩

/-- C3: when tweaks are supplied and the merge raises, the error is
swallowed and the request proceeds with the original graph definition —
the whole request behaves exactly as if no tweaks had been supplied, and
is never aborted by the failed merge. -/
theorem c3_failed_merge_uses_original_graph
    (flows : List Flow) (fid : String) (u : User) (inputs : Option PyVal)
    (cc : Bool) (sid : Option String) (tw : List (String × PyVal)) (e : PyExc)
    (pt : PyVal → List (String × PyVal) → Except PyExc PyVal)
    (la : PyVal → Option PyVal → Bool → Option String →
      Except PyExc (Option String × PyVal))
    (lt : PyVal → Option PyVal → Bool → Option String →
      Except PyExc (Option String × Task))
    (sync : Bool) (f : Flow) (d : PyVal)
    (hq : queryFirstFlow flows fid u.id = .ok (some f))
    (hd : f.data = some d)
    (htw : tw ≠ [])
    (hmerge : pt d tw = .error e) :
    process_flow flows fid (some u) inputs (some tw) cc sid pt la lt sync
      = process_flow flows fid (some u) inputs none cc sid pt la lt sync := by
  simp [process_flow, processFlowBody, hq, hd, resolveGraphData,
    List.isEmpty_iff, htw, hmerge]

/-- A merge engine that fails on every tweak set, for the C3 witness. -/
def ptBoom : PyVal → List (String × PyVal) → Except PyExc PyVal :=
  fun _ _ => .error (.other "Error processing tweaks")

theorem c3_witness :
    queryFirstFlow [flowA] uuidA userA.id = .ok (some flowA) ∧
    flowA.data = some (.vDict [("nodes", .vList [])]) ∧
    ([(("nodeA.value" : String), PyVal.vInt 5)] ≠ []) ∧
    ptBoom (.vDict [("nodes", .vList [])]) [("nodeA.value", .vInt 5)]
      = .error (.other "Error processing tweaks") ∧
    process_flow [flowA] uuidA (some userA) none
        (some [("nodeA.value", .vInt 5)]) false none ptBoom laUnused ltUnused true
      = process_flow [flowA] uuidA (some userA) none none false none
          ptBoom laUnused ltUnused true :=
  ⟨rfl, rfl, by simp, rfl,
    c3_failed_merge_uses_original_graph [flowA] uuidA userA none false none
      [("nodeA.value", .vInt 5)] (.other "Error processing tweaks")
      ptBoom laUnused ltUnused true flowA (.vDict [("nodes", .vList [])])
      rfl rfl (by simp) rfl⟩

/-- C4: a launch whose well-formed `flowId` matches no flow owned by the
calling user — the query filters on both the flow id and the caller's user
id — fails with HTTP 404 whose detail is the fixed not-found message; no
part of any other owner's graph definition appears in the outcome. -/
theorem c4_unowned_flow_not_found
    (flows : List Flow) (fid : String) (u : User) (inputs : Option PyVal)
    (tweaks : Option (List (String × PyVal))) (cc : Bool) (sid : Option String)
    (pt : PyVal → List (String × PyVal) → Except PyExc PyVal)
    (la : PyVal → Option PyVal → Bool → Option String →
      Except PyExc (Option String × PyVal))
    (lt : PyVal → Option PyVal → Bool → Option String →
      Except PyExc (Option String × Task))
    (sync : Bool)
    (hvalid : isValidUuid fid = true)
    (hnone : ∀ f ∈ flows, ¬(f.id = fid ∧ f.user_id = u.id)) :
    process_flow flows fid (some u) inputs tweaks cc sid pt la lt sync
      = .httpError 404 (flowNotFoundMsg fid) := by
  have hfilter : flows.filter (fun f => f.id == fid && f.user_id == u.id) = [] := by
    rw [List.filter_eq_nil_iff]
    intro f hf
    simp only [Bool.and_eq_true, beq_iff_eq, not_and]
    intro h1 h2
    exact hnone f hf ⟨h1, h2⟩
  simp [process_flow, processFlowBody, queryFirstFlow, hvalid, hfilter,
    handleProcessFlowExc, strContains_self]

/-- A flow with the queried id but a different owner, for the C4 witness. -/
def flowOther : Flow := ⟨uuidA, 2, some (.vDict [("secret", .vStr "s")])⟩

theorem c4_witness :
    isValidUuid uuidA = true ∧
    (∀ f ∈ [flowOther], ¬(f.id = uuidA ∧ f.user_id = userA.id)) ∧
    process_flow [flowOther] uuidA (some userA) none none false none
        ptOk laUnused ltUnused true
      = .httpError 404 (flowNotFoundMsg uuidA) :=
  ⟨by decide, by decide,
    c4_unowned_flow_not_found [flowOther] uuidA userA none none false none
      ptOk laUnused ltUnused true (by decide) (by decide)⟩

/-- C5: an asynchronous launch (`sync = false`) returns the task handle and
the dispatched task's current status in the response's result field,
without consulting the completion value. -/
theorem c5_async_returns_handle_and_status
    (flows : List Flow) (fid : String) (u : User) (inputs : Option PyVal)
    (tweaks : Option (List (String × PyVal))) (cc : Bool) (sid : Option String)
    (pt : PyVal → List (String × PyVal) → Except PyExc PyVal)
    (la : PyVal → Option PyVal → Bool → Option String →
      Except PyExc (Option String × PyVal))
    (tid : Option String) (t : Task) (f : Flow) (d : PyVal)
    (hq : queryFirstFlow flows fid u.id = .ok (some f))
    (hd : f.data = some d) :
    process_flow flows fid (some u) inputs tweaks cc sid pt la
        (fun _ _ _ _ => .ok (tid, t)) false
      = .ok ⟨t.status, tid, pyOfOptStr sid⟩ := by
  simp [process_flow, processFlowBody, hq, hd, dispatchStep]

theorem c5_witness :
    queryFirstFlow [flowA] uuidA userA.id = .ok (some flowA) ∧
    flowA.data = some (.vDict [("nodes", .vList [])]) ∧
    process_flow [flowA] uuidA (some userA) none none false (some "sess")
        ptOk laUnused
        (fun _ _ _ _ => .ok (some "t2", Task.mk (.vStr "PENDING") false .vNone))
        false
      = .ok ⟨.vStr "PENDING", some "t2", .vStr "sess"⟩ :=
  ⟨rfl, rfl,
    c5_async_returns_handle_and_status [flowA] uuidA userA none none false
      (some "sess") ptOk laUnused (some "t2")
      (Task.mk (.vStr "PENDING") false .vNone) flowA
      (.vDict [("nodes", .vList [])]) rfl rfl⟩

/-- C7 counterexample: a malformed flow identifier and a well-formed
identifier of a flow that does not exist both produce the same HTTP 404
not-found outcome, distinguished only by the detail text — there is no
distinct InvalidInput outcome for the malformed identifier. -/
theorem c7_counterexample :
    process_flow [] "not-a-uuid" (some userA) none none false none
        ptOk laUnused ltUnused true
      = .httpError 404 statementErrorMsg ∧
    process_flow [] uuidA (some userA) none none false none
        ptOk laUnused ltUnused true
      = .httpError 404 (flowNotFoundMsg uuidA) := by
  constructor <;> rfl

/-- C7 amended: a launch with a malformed flow identifier fails with the
same NotFound outcome (HTTP 404) used for a missing flow, carrying the
`StatementError` text; the two cases differ only in the detail message. -/
theorem c7_amended_malformed_id_maps_to_404
    (flows : List Flow) (fid : String) (u : User) (inputs : Option PyVal)
    (tweaks : Option (List (String × PyVal))) (cc : Bool) (sid : Option String)
    (pt : PyVal → List (String × PyVal) → Except PyExc PyVal)
    (la : PyVal → Option PyVal → Bool → Option String →
      Except PyExc (Option String × PyVal))
    (lt : PyVal → Option PyVal → Bool → Option String →
      Except PyExc (Option String × Task))
    (sync : Bool)
    (hinvalid : isValidUuid fid = false) :
    process_flow flows fid (some u) inputs tweaks cc sid pt la lt sync
      = .httpError 404 statementErrorMsg := by
  simp [process_flow, processFlowBody, queryFirstFlow, hinvalid,
    handleProcessFlowExc, statementMsg_contains_fragment]

theorem c7_amended_witness :
    isValidUuid "not-a-uuid" = false ∧
    process_flow [] "not-a-uuid" (some userA) none none false none
        ptOk laUnused ltUnused false
      = .httpError 404 statementErrorMsg :=
  ⟨by decide,
    c7_amended_malformed_id_maps_to_404 [] "not-a-uuid" userA none none false
      none ptOk laUnused ltUnused false (by decide)⟩

/-- C8: when tweaks are absent or empty, the graph definition handed to the
dispatch abstraction is exactly the stored flow's `data`, unchanged: the
whole endpoint reduces to the dispatch step applied to the stored
definition, with the merge engine never consulted. -/
theorem c8_no_tweaks_dispatches_stored_data
    (flows : List Flow) (fid : String) (u : User) (inputs : Option PyVal)
    (tweaks : Option (List (String × PyVal))) (cc : Bool) (sid : Option String)
    (pt : PyVal → List (String × PyVal) → Except PyExc PyVal)
    (la : PyVal → Option PyVal → Bool → Option String →
      Except PyExc (Option String × PyVal))
    (lt : PyVal → Option PyVal → Bool → Option String →
      Except PyExc (Option String × Task))
    (sync : Bool) (f : Flow) (d : PyVal)
    (hq : queryFirstFlow flows fid u.id = .ok (some f))
    (hd : f.data = some d)
    (htw : tweaks = none ∨ tweaks = some []) :
    process_flow flows fid (some u) inputs tweaks cc sid pt la lt sync
      = match dispatchStep d inputs cc sid la lt sync with
        | .ok r => .ok r
        | .error e => handleProcessFlowExc fid e := by
  rcases htw with h | h <;> subst h <;>
    simp [process_flow, processFlowBody, hq, hd, resolveGraphData]

theorem c8_witness :
    queryFirstFlow [flowA] uuidA userA.id = .ok (some flowA) ∧
    flowA.data = some (.vDict [("nodes", .vList [])]) ∧
    ((none : Option (List (String × PyVal))) = none ∨
      (none : Option (List (String × PyVal))) = some []) ∧
    process_flow [flowA] uuidA (some userA) none none false none
        ptBoom laUnused ltUnused false
      = match dispatchStep (.vDict [("nodes", .vList [])]) none false none
            laUnused ltUnused false with
        | .ok r => .ok r
        | .error e => handleProcessFlowExc uuidA e :=
  ⟨rfl, rfl, Or.inl rfl,
    c8_no_tweaks_dispatches_stored_data [flowA] uuidA userA none none false
      none ptBoom laUnused ltUnused false flowA (.vDict [("nodes", .vList [])])
      rfl rfl (Or.inl rfl)⟩

/-- C9: a launch whose flow is found and owned by the caller but whose
stored `data` is NULL fails with HTTP 500 carrying the has-no-data message
— not with the 404 NotFound outcome, because the handler's substring test
for the not-found message cannot match the has-no-data message. -/
theorem c9_flow_without_data_maps_to_500
    (flows : List Flow) (fid : String) (u : User) (inputs : Option PyVal)
    (tweaks : Option (List (String × PyVal))) (cc : Bool) (sid : Option String)
    (pt : PyVal → List (String × PyVal) → Except PyExc PyVal)
    (la : PyVal → Option PyVal → Bool → Option String →
      Except PyExc (Option String × PyVal))
    (lt : PyVal → Option PyVal → Bool → Option String →
      Except PyExc (Option String × Task))
    (sync : Bool) (f : Flow)
    (hvalid : isValidUuid fid = true)
    (hq : queryFirstFlow flows fid u.id = .ok (some f))
    (hd : f.data = none) :
    process_flow flows fid (some u) inputs tweaks cc sid pt la lt sync
      = .httpError 500 (flowNoDataMsg fid) := by
  simp [process_flow, processFlowBody, hq, hd, handleProcessFlowExc,
    strContains_noData_notFound hvalid]

theorem c9_witness :
    isValidUuid uuidA = true ∧
    queryFirstFlow [flowNoData] uuidA userA.id = .ok (some flowNoData) ∧
    flowNoData.data = none ∧
    process_flow [flowNoData] uuidA (some userA) none none false none
        ptOk laUnused ltUnused true
      = .httpError 500 (flowNoDataMsg uuidA) :=
  ⟨by decide, rfl, rfl,
    c9_flow_without_data_maps_to_500 [flowNoData] uuidA userA none none false
      none ptOk laUnused ltUnused true flowNoData (by decide) rfl rfl⟩

end Langflow
